import Mathlib

/-!
Product-Management: read path, filter query and cache protocol

A shallow embedding of `internal/api/products.go` and `internal/cache/cache.go`.

* HTTP handlers become functions from the request inputs (path variable, query
  parameters, decoded body), the Redis content and the answers of the external
  collaborators to a `Response` and a `World`: the Redis content afterwards and
  the ordered list of calls made to the collaborators.
* The Go standard library and the drivers (`strconv`, `encoding/json`, the
  `float64` comparisons, pgx, go-redis, amqp) are not part of the repository.
  Pure library functions are taken as the parameter `GoLib`; the answers of the
  store, of Redis and of the queue are taken as the parameter `Env`.
* `int` is `Int` (no arithmetic is performed on it), `time.Duration` is an
  integer number of nanoseconds.
-/

namespace ProductManagement

/-! ## Data model -/

/-- The type `time.Duration`: an integer count of nanoseconds. -/
abbrev Duration := Int

/-- The constant `time.Second`, in nanoseconds. -/
def Second : Duration := 1000000000

/-- The struct `Product` of `products.go`; `F` stands for `float64`. A nil slice and an
empty slice are both the empty list. -/
structure Product (F : Type) where
  UserID : Int
  ProductName : String
  ProductDesc : String
  ProductImages : List String
  ProductPrice : F
  CompressedProductImages : List String

/-- The library functions the handlers call, with `F` the carrier of `float64`. -/
structure GoLib (F : Type) where
  /-- The function `strconv.Atoi`; `none` when it returns an error. -/
  atoi : String → Option Int
  /-- The function `strconv.Itoa`. -/
  itoa : Int → String
  /-- The call `strconv.ParseFloat(s, 64)`; `none` when it returns an error. -/
  parseFloat : String → Option F
  /-- The zero value of `float64`. -/
  zero : F
  /-- The comparison `a > b` on `float64`. -/
  gt : F → F → Bool
  /-- The comparison `a <= b` on `float64`. -/
  le : F → F → Bool
  /-- The bytes of `json.Marshal(product)` as a string (empty when it fails). -/
  marshalProduct : Product F → String
  /-- The bytes of `json.Marshal(products)` as a string (empty when it fails). -/
  marshalProducts : List (Product F) → String

/-- A value of the `[]interface{}` argument list handed to the store. -/
inductive Arg (F : Type) where
  | int (n : Int)
  | float (x : F)
  | str (s : String)
  | strs (xs : List String)

/-- A column value as the driver hands it to `Scan`. -/
inductive Value (F : Type) where
  | null
  | int (n : Int)
  | float (x : F)
  | text (s : String)
  | textArray (xs : List String)

/-- The body written to the `http.ResponseWriter`. -/
inductive Body where
  /-- Raw bytes given to `w.Write`. -/
  | bytes (s : String)
  /-- The JSON object with the single key `error`. -/
  | error (message : String)
  /-- The JSON object with `message` "Product created successfully" and `product_id`. -/
  | created (productID : Int)
  /-- The JSON object with `message` "Product updated successfully". -/
  | updated
  deriving DecidableEq

/-- What a handler sends: the status code and the body. -/
structure Response where
  status : Nat
  body : Body
  deriving DecidableEq

def StatusOK : Nat := 200
def StatusBadRequest : Nat := 400
def StatusNotFound : Nat := 404
def StatusInternalServerError : Nat := 500

/-- The function `RespondWithError`: status `code`, body the JSON object carrying `message`. -/
def RespondWithError (code : Nat) (message : String) : Response :=
  { status := code, body := Body.error message }

/-! ## Filter query of `GetProducts` -/

/-- The string assigned to `query` at the start of `GetProducts`. -/
def baseQuery : String :=
  "SELECT id, product_name, product_description, product_price, product_images, compressed_product_images FROM products WHERE user_id=$1"

/-- The query text and the argument list handed to `db.DB.Query`. -/
structure FilterQuery (F : Type) where
  userID : Int
  query : String
  queryArgs : List (Arg F)

/-- The state of the locals of `GetProducts` while the filter is assembled. -/
structure Builder (F : Type) where
  minPrice : F
  maxPrice : F
  queryParts : List String
  queryArgs : List (Arg F)

/-- The block `if minPriceStr != ""` of `GetProducts`. -/
def applyMinPrice {F : Type} (lib : GoLib F) (minPriceStr : String) (b : Builder F) :
    Except Response (Builder F) :=
  if minPriceStr ≠ "" then
    match lib.parseFloat minPriceStr with
    | none => Except.error (RespondWithError StatusBadRequest "Invalid min_price")
    | some m =>
      Except.ok { b with
        minPrice := m
        queryParts := b.queryParts ++ ["product_price >= $2"]
        queryArgs := b.queryArgs ++ [Arg.float m] }
  else Except.ok b

/-- The block `if maxPriceStr != ""` of `GetProducts`, range check included. -/
def applyMaxPrice {F : Type} (lib : GoLib F) (maxPriceStr : String) (b : Builder F) :
    Except Response (Builder F) :=
  if maxPriceStr ≠ "" then
    match lib.parseFloat maxPriceStr with
    | none => Except.error (RespondWithError StatusBadRequest "Invalid max_price")
    | some m =>
      if lib.gt b.minPrice m then
        Except.error (RespondWithError StatusBadRequest
          "min_price should be less than or equal to max_price")
      else
        Except.ok { b with
          maxPrice := m
          queryParts := b.queryParts ++ ["product_price <= $3"]
          queryArgs := b.queryArgs ++ [Arg.float m] }
  else Except.ok b

/-- The block `if productName != ""` of `GetProducts`. -/
def applyProductName {F : Type} (productName : String) (b : Builder F) : Builder F :=
  if productName ≠ "" then
    { b with
      queryParts := b.queryParts ++ ["product_name ILIKE $4"]
      queryArgs := b.queryArgs ++ [Arg.str ("%" ++ productName ++ "%")] }
  else b

/-- The final assembly: `query += " AND " + strings.Join(queryParts[1:], " AND ")` when
more than one part was collected. -/
def joinQuery (query : String) (queryParts : List String) : String :=
  if queryParts.length > 1 then
    query ++ " AND " ++ String.intercalate " AND " (queryParts.drop 1)
  else query

/-- Lines 128 to 185 of `GetProducts`: from the four query parameters to either the error
response sent before any store call, or the query and arguments handed to the store. -/
def filterQuery {F : Type} (lib : GoLib F)
    (userIDStr minPriceStr maxPriceStr productName : String) :
    Except Response (FilterQuery F) :=
  match lib.atoi userIDStr with
  | none => Except.error (RespondWithError StatusBadRequest "Invalid user_id")
  | some userID =>
    if userID ≤ 0 then Except.error (RespondWithError StatusBadRequest "Invalid user_id")
    else
      let b0 : Builder F :=
        { minPrice := lib.zero, maxPrice := lib.zero
          queryParts := ["user_id=$1"], queryArgs := [Arg.int userID] }
      match applyMinPrice lib minPriceStr b0 with
      | Except.error r => Except.error r
      | Except.ok b1 =>
        match applyMaxPrice lib maxPriceStr b1 with
        | Except.error r => Except.error r
        | Except.ok b2 =>
          let b3 := applyProductName productName b2
          Except.ok
            { userID := userID
              query := joinQuery baseQuery b3.queryParts
              queryArgs := b3.queryArgs }

/-! ## Reading the positional placeholders of a query text -/

/-- The value of a run of decimal digits, most significant first. -/
def digitsValue (ds : List Char) : Nat :=
  ds.foldl (fun acc c => 10 * acc + (c.toNat - 48)) 0

/-- The placeholders of a query text, left to right: every `$` that is directly followed
by at least one decimal digit contributes the number its maximal digit run denotes. -/
def placeholdersOf : List Char → List Nat
  | [] => []
  | c :: rest =>
    if c = '$' ∧ (rest.takeWhile Char.isDigit) ≠ [] then
      digitsValue (rest.takeWhile Char.isDigit) :: placeholdersOf rest
    else placeholdersOf rest

/-- The placeholders of a query string. -/
def placeholders (query : String) : List Nat := placeholdersOf query.data


/-! ## The collaborators: Redis, the store, the queue -/

/-- A Redis string key: its value and the expiration it was set with (0: none). -/
structure Entry where
  value : String
  expiration : Duration
  deriving DecidableEq

/-- The content of the Redis database the client `rdb` talks to. Time does not pass in
this model: no entry expires between two calls. -/
abbrev Redis := String → Option Entry

/-- A call made to a collaborator, as the handlers issue it. -/
inductive Call (F : Type) where
  | cacheGet (key : String)
  | cacheSet (key value : String) (ttl : Duration)
  | dbQueryRow (query : String) (args : List (Arg F))
  | dbQuery (query : String) (args : List (Arg F))
  | dbExec (query : String) (args : List (Arg F))
  | publish (productID : Int) (imageURLs : List String)

/-- Whether a call goes to the backing store. -/
def Call.isStore {F : Type} : Call F → Bool
  | Call.dbQueryRow _ _ => true
  | Call.dbQuery _ _ => true
  | Call.dbExec _ _ => true
  | _ => false

/-- Whether a call writes to the cache. -/
def Call.isCacheSet {F : Type} : Call F → Bool
  | Call.cacheSet _ _ _ => true
  | _ => false

/-- What the collaborators answer during one request: the store per statement, and
whether the Redis round trips and the queue publish fail. -/
structure Env (F : Type) where
  /-- The row `db.DB.QueryRow` yields, or its error (no row, connection). -/
  queryRow : String → List (Arg F) → Except String (List (Value F))
  /-- The outcome of `db.DB.Query`: an error, or the rows delivered by `rows.Next` and the
  final `rows.Err()`. -/
  query : String → List (Arg F) → Except String (List (List (Value F)) × Option String)
  /-- The error of `db.DB.Exec`, if any. -/
  exec : String → List (Arg F) → Option String
  /-- The error of the Redis `GET` round trip, if any. -/
  cacheGetErr : Option String
  /-- The error of the Redis `SET` round trip, if any. -/
  cacheSetErr : Option String
  /-- The error of `queue.Publish`, if any. -/
  publishErr : Option String

/-- The Redis content and the calls issued so far, in order. -/
structure World (F : Type) where
  rdb : Redis
  calls : List (Call F)

/-- The function `SetCache` of `cache.go`: `rdb.Set(ctx, key, value, ttl)` with the `ttl`
passed on unchanged; the error of the round trip is returned, and then nothing is stored. -/
def SetCache {F : Type} (env : Env F) (key value : String) (ttl : Duration) (w : World F) :
    Option String × World F :=
  let w1 : World F := { w with calls := w.calls ++ [Call.cacheSet key value ttl] }
  match env.cacheSetErr with
  | some err => (some err, w1)
  | none =>
    (none, { w1 with
      rdb := fun k => if k = key then some { value := value, expiration := ttl } else w.rdb k })

/-- The function `GetCache` of `cache.go`: an absent key (`redis.Nil`) gives the empty
string without error, any other error gives the empty string and the error, a present key
gives its value. -/
def GetCache {F : Type} (env : Env F) (key : String) (w : World F) :
    (String × Option String) × World F :=
  let w1 : World F := { w with calls := w.calls ++ [Call.cacheGet key] }
  match env.cacheGetErr with
  | some err => (("", some err), w1)
  | none =>
    match w.rdb key with
    | none => (("", none), w1)
    | some entry => ((entry.value, none), w1)

/-! ## `Scan` -/

/-- A column scanned into `*int`. -/
def scanInt {F : Type} : Value F → Option Int
  | Value.int n => some n
  | _ => none

/-- A column scanned into `*string`. -/
def scanString {F : Type} : Value F → Option String
  | Value.text s => some s
  | _ => none

/-- A column scanned into `*float64`. -/
def scanFloat {F : Type} : Value F → Option F
  | Value.float x => some x
  | _ => none

/-- A column scanned into `*[]string`; SQL NULL gives the nil slice. -/
def scanStrings {F : Type} : Value F → Option (List String)
  | Value.textArray xs => some xs
  | Value.null => some []
  | _ => none

/-- The call `Scan(&product.UserID, &product.ProductName, &product.ProductDesc,
&product.ProductPrice, &product.ProductImages, &product.CompressedProductImages)`, used by
`GetProductByID` and `GetProducts` alike: the columns are assigned by position. -/
def scanProduct {F : Type} (row : List (Value F)) : Option (Product F) :=
  match row with
  | [c1, c2, c3, c4, c5, c6] =>
    match scanInt c1, scanString c2, scanString c3, scanFloat c4, scanStrings c5,
      scanStrings c6 with
    | some userID, some name, some desc, some price, some images, some compressed =>
      some { UserID := userID, ProductName := name, ProductDesc := desc
             ProductPrice := price, ProductImages := images
             CompressedProductImages := compressed }
    | _, _, _, _, _, _ => none
  | _ => none

/-- The loop `for rows.Next()` of `GetProducts`: every row is scanned and appended; the
first row that fails to scan ends the request. -/
def scanRows {F : Type} : List (List (Value F)) → Option (List (Product F))
  | [] => some []
  | row :: rest =>
    match scanProduct row with
    | none => none
    | some product =>
      match scanRows rest with
      | none => none
      | some products => some (product :: products)

/-! ## The handlers -/

/-- The statement of `GetProductByID`. -/
def productByIDQuery : String :=
  "\n\t\tSELECT user_id, product_name, product_description, product_price, product_images, compressed_product_images\n\t\tFROM products WHERE id=$1"

/-- The call `db.DB.QueryRow(ctx, query, args...).Scan(...)` into a `Product`: the error
of the query or of the scan, or the product. -/
def queryRowProduct {F : Type} (env : Env F) (query : String) (args : List (Arg F))
    (w : World F) : Option (Product F) × World F :=
  let w1 : World F := { w with calls := w.calls ++ [Call.dbQueryRow query args] }
  match env.queryRow query args with
  | Except.error _ => (none, w1)
  | Except.ok row => (scanProduct row, w1)

/-- The handler `GetProductByID`, from the path variable `id` and the Redis content. -/
def GetProductByID {F : Type} (lib : GoLib F) (env : Env F) (productIDStr : String)
    (rdb : Redis) : Response × World F :=
  let w0 : World F := { rdb := rdb, calls := [] }
  match lib.atoi productIDStr with
  | none => (RespondWithError StatusBadRequest "Invalid product ID", w0)
  | some productID =>
    let cacheKey := "product:" ++ lib.itoa productID
    match GetCache env cacheKey w0 with
    | ((cachedProduct, err), w1) =>
      if err = none ∧ cachedProduct ≠ "" then
        ({ status := StatusOK, body := Body.bytes cachedProduct }, w1)
      else
        match queryRowProduct env productByIDQuery [Arg.int productID] w1 with
        | (none, w2) => (RespondWithError StatusNotFound "Product not found", w2)
        | (some product, w2) =>
          let productData := lib.marshalProduct product
          match SetCache env cacheKey productData (10 * 60) w2 with
          | (_, w3) => ({ status := StatusOK, body := Body.bytes productData }, w3)

/-- The call `db.DB.Query(ctx, query, args...)`. -/
def dbQuery {F : Type} (env : Env F) (query : String) (args : List (Arg F)) (w : World F) :
    Except String (List (List (Value F)) × Option String) × World F :=
  (env.query query args, { w with calls := w.calls ++ [Call.dbQuery query args] })

/-- The handler `GetProducts`, from the query parameters `user_id`, `min_price`,
`max_price`, `product_name` and the Redis content. -/
def GetProducts {F : Type} (lib : GoLib F) (env : Env F)
    (userIDStr minPriceStr maxPriceStr productName : String) (rdb : Redis) :
    Response × World F :=
  let w0 : World F := { rdb := rdb, calls := [] }
  match filterQuery lib userIDStr minPriceStr maxPriceStr productName with
  | Except.error r => (r, w0)
  | Except.ok q =>
    match dbQuery env q.query q.queryArgs w0 with
    | (Except.error _, w1) =>
      (RespondWithError StatusInternalServerError "Failed to retrieve products", w1)
    | (Except.ok (rows, rowsErr), w1) =>
      match scanRows rows with
      | none => (RespondWithError StatusInternalServerError "Error scanning product data", w1)
      | some products =>
        match rowsErr with
        | some _ =>
          (RespondWithError StatusInternalServerError "Error iterating over products", w1)
        | none =>
          let productsData := lib.marshalProducts products
          let cacheKey := "products:user:" ++ lib.itoa q.userID
          match SetCache env cacheKey productsData (10 * 60) w1 with
          | (_, w2) => ({ status := StatusOK, body := Body.bytes productsData }, w2)

/-- The statement of `CreateProduct`. -/
def insertQuery : String :=
  "\n\t\tINSERT INTO products (user_id, product_name, product_description, product_price, product_images)\n\t\tVALUES ($1, $2, $3, $4, $5)\n\t\tRETURNING id\n\t"

/-- The statement of `UpdateProduct`. -/
def updateQuery : String :=
  "\n\t\tUPDATE products \n\t\tSET product_name=$1, product_description=$2, product_price=$3, product_images=$4 \n\t\tWHERE id=$5"

/-- The call `db.DB.QueryRow(ctx, query, args...).Scan(&productID)`: the error of the
query or of the scan, or the returned id. -/
def queryRowID {F : Type} (env : Env F) (query : String) (args : List (Arg F))
    (w : World F) : Option Int × World F :=
  let w1 : World F := { w with calls := w.calls ++ [Call.dbQueryRow query args] }
  match env.queryRow query args with
  | Except.ok [c] => (scanInt c, w1)
  | _ => (none, w1)

/-- The call `db.DB.Exec(ctx, query, args...)`, keeping its error only. -/
def dbExec {F : Type} (env : Env F) (query : String) (args : List (Arg F)) (w : World F) :
    Option String × World F :=
  (env.exec query args, { w with calls := w.calls ++ [Call.dbExec query args] })

/-- The function `queue.Publish` applied to the image-processing task of a product. -/
def Publish {F : Type} (env : Env F) (productID : Int) (imageURLs : List String)
    (w : World F) : Option String × World F :=
  (env.publishErr, { w with calls := w.calls ++ [Call.publish productID imageURLs] })

/-- The handler `CreateProduct`, from the decoded body (`none`: the body does not decode)
and the Redis content. -/
def CreateProduct {F : Type} (lib : GoLib F) (env : Env F) (body : Option (Product F))
    (rdb : Redis) : Response × World F :=
  let w0 : World F := { rdb := rdb, calls := [] }
  match body with
  | none => (RespondWithError StatusBadRequest "Invalid request payload", w0)
  | some product =>
    if product.UserID = 0 ∨ product.ProductName = "" ∨ product.ProductImages.length = 0 ∨
        lib.le product.ProductPrice lib.zero = true then
      (RespondWithError StatusBadRequest "Missing required fields or invalid data", w0)
    else
      match queryRowID env insertQuery
          [Arg.int product.UserID, Arg.str product.ProductName, Arg.str product.ProductDesc,
           Arg.float product.ProductPrice, Arg.strs product.ProductImages] w0 with
      | (none, w1) =>
        (RespondWithError StatusInternalServerError "Failed to create product", w1)
      | (some productID, w1) =>
        match Publish env productID product.ProductImages w1 with
        | (some _, w2) =>
          (RespondWithError StatusInternalServerError
            "Failed to enqueue image processing task", w2)
        | (none, w2) => ({ status := StatusOK, body := Body.created productID }, w2)

/-- The handler `UpdateProduct`, from the path variable `id`, the decoded body and the
Redis content. -/
def UpdateProduct {F : Type} (lib : GoLib F) (env : Env F) (productIDStr : String)
    (body : Option (Product F)) (rdb : Redis) : Response × World F :=
  let w0 : World F := { rdb := rdb, calls := [] }
  match lib.atoi productIDStr with
  | none => (RespondWithError StatusBadRequest "Invalid product ID", w0)
  | some productID =>
    match body with
    | none => (RespondWithError StatusBadRequest "Invalid request payload", w0)
    | some product =>
      if product.ProductName = "" ∨ lib.le product.ProductPrice lib.zero = true then
        (RespondWithError StatusBadRequest "Missing required fields or invalid data", w0)
      else
        match dbExec env updateQuery
            [Arg.str product.ProductName, Arg.str product.ProductDesc,
             Arg.float product.ProductPrice, Arg.strs product.ProductImages,
             Arg.int productID] w0 with
        | (some _, w1) =>
          (RespondWithError StatusInternalServerError "Failed to update product", w1)
        | (none, w1) =>
          let cacheKey := "product:" ++ lib.itoa productID
          match SetCache env cacheKey "" 0 w1 with
          | (_, w2) => ({ status := StatusOK, body := Body.updated }, w2)

/-! ## The `products` table, for stating what the select list returns -/

/-- A row of the table `products`: the columns named by the three statements of the
handlers. `compressed_product_images` is NULL until the images are processed. -/
structure ProductRow (F : Type) where
  id : Int
  user_id : Int
  product_name : String
  product_description : String
  product_price : F
  product_images : List String
  compressed_product_images : Option (List String)

/-- The value of a named column of a row. -/
def ProductRow.column {F : Type} (r : ProductRow F) (name : String) : Value F :=
  if name = "id" then Value.int r.id
  else if name = "user_id" then Value.int r.user_id
  else if name = "product_name" then Value.text r.product_name
  else if name = "product_description" then Value.text r.product_description
  else if name = "product_price" then Value.float r.product_price
  else if name = "product_images" then Value.textArray r.product_images
  else if name = "compressed_product_images" then
    match r.compressed_product_images with
    | none => Value.null
    | some xs => Value.textArray xs
  else Value.null

/-- The rows `SELECT <columns> FROM products WHERE user_id=$1` returns for the argument
`userID`: the rows of that user, projected on the select list in its order. -/
def selectByUser {F : Type} (columns : List String) (table : List (ProductRow F))
    (userID : Int) : List (List (Value F)) :=
  (table.filter (fun r => decide (r.user_id = userID))).map (fun r => columns.map r.column)

/-- The select list of `baseQuery`, column by column. -/
def selectColumns : List String :=
  ["id", "product_name", "product_description", "product_price", "product_images",
   "compressed_product_images"]

/-- The select list of `productByIDQuery`, column by column. -/
def selectByIDColumns : List String :=
  ["user_id", "product_name", "product_description", "product_price", "product_images",
   "compressed_product_images"]

/-- The product `Scan` builds from a row of `GetProducts`: the first selected column,
`id`, lands in `UserID`. -/
def ProductRow.scanned {F : Type} (r : ProductRow F) : Product F :=
  { UserID := r.id
    ProductName := r.product_name
    ProductDesc := r.product_description
    ProductPrice := r.product_price
    ProductImages := r.product_images
    CompressedProductImages := r.compressed_product_images.getD [] }

/-! ## A sample library, used to run the handlers on concrete requests -/

/-- A non-empty run of decimal digits read as a natural number. -/
def parseDigits (ds : List Char) : Option Nat :=
  if ds ≠ [] ∧ ds.all Char.isDigit = true then some (digitsValue ds) else none

/-- A decimal literal with an optional sign and nothing else. -/
def parseSigned (s : String) : Option Int :=
  match s.data with
  | '-' :: ds => (parseDigits ds).map (fun n => -(n : Int))
  | '+' :: ds => (parseDigits ds).map (fun n => (n : Int))
  | ds => (parseDigits ds).map (fun n => (n : Int))

/-- Base-10 `strconv.Atoi` on a 64-bit platform: an optional sign, decimal digits, and a
value that fits `int64`. -/
def sampleAtoi (s : String) : Option Int :=
  (parseSigned s).filter (fun n => decide (-(2 : Int) ^ 63 ≤ n ∧ n < (2 : Int) ^ 63))

/-- The function `strconv.ParseFloat` restricted to integral decimal literals of magnitude
at most `2^53`, which `float64` represents exactly; other strings are rejected by this
sample although the library accepts more. -/
def sampleParseFloat (s : String) : Option Int :=
  (parseSigned s).filter (fun n => decide (-(2 : Int) ^ 53 ≤ n ∧ n ≤ (2 : Int) ^ 53))

/-- A JSON string without escaping. -/
def sampleQuote (s : String) : String := "\"" ++ s ++ "\""

/-- A JSON array of strings. -/
def sampleArray (xs : List String) : String :=
  "[" ++ String.intercalate "," (xs.map sampleQuote) ++ "]"

/-- A JSON object for a product with an integral price, keys as in the struct tags;
strings are not escaped and an empty slice is rendered as an empty array. -/
def sampleMarshalProduct (p : Product Int) : String :=
  "\x7b\"user_id\":" ++ toString p.UserID ++
  ",\"product_name\":" ++ sampleQuote p.ProductName ++
  ",\"product_description\":" ++ sampleQuote p.ProductDesc ++
  ",\"product_images\":" ++ sampleArray p.ProductImages ++
  ",\"product_price\":" ++ toString p.ProductPrice ++
  ",\"compressed_product_images\":" ++ sampleArray p.CompressedProductImages ++ "\x7d"

/-- The sample library: integral prices, decimal literals, unescaped JSON. -/
def sampleLib : GoLib Int where
  atoi := sampleAtoi
  itoa := fun n => toString n
  parseFloat := sampleParseFloat
  zero := 0
  gt := fun a b => decide (a > b)
  le := fun a b => decide (a ≤ b)
  marshalProduct := sampleMarshalProduct
  marshalProducts := fun ps => "[" ++ String.intercalate "," (ps.map sampleMarshalProduct) ++ "]"

/-- A sample of collaborators over a fixed table, none of which fails: the store answers
the statement of `GetProductByID`, the unfiltered statement of `GetProducts` and the insert
of `CreateProduct`; every other statement is answered by an error. -/
def sampleEnv (table : List (ProductRow Int)) : Env Int where
  queryRow := fun query args =>
    if query = insertQuery then Except.ok [Value.int (table.length + 1)]
    else if query = productByIDQuery then
      match args with
      | [Arg.int id] =>
        match table.find? (fun r => decide (r.id = id)) with
        | some r => Except.ok (selectByIDColumns.map r.column)
        | none => Except.error "no rows in result set"
      | _ => Except.error "wrong number of arguments"
    else Except.error "statement not covered by the sample"
  query := fun query args =>
    if query = baseQuery then
      match args with
      | [Arg.int userID] => Except.ok (selectByUser selectColumns table userID, none)
      | _ => Except.error "wrong number of arguments"
    else Except.error "statement not covered by the sample"
  exec := fun _ _ => none
  cacheGetErr := none
  cacheSetErr := none
  publishErr := none

/-- A table with one product, id 42, owned by user 7. -/
def sampleTable : List (ProductRow Int) :=
  [{ id := 42, user_id := 7, product_name := "shirt", product_description := "cotton"
     product_price := 50, product_images := ["a.png"], compressed_product_images := none }]

/-- The product of `sampleTable` as `GetProductByID` reads it. -/
def sampleProduct : Product Int :=
  { UserID := 7, ProductName := "shirt", ProductDesc := "cotton", ProductPrice := 50
    ProductImages := ["a.png"], CompressedProductImages := [] }

/-- The empty Redis database. -/
def emptyRedis : Redis := fun _ => none

/-! ## Vocabulary of the statements -/

/-- The optional part of the argument list: one float per supplied price, then the
wrapped name pattern. -/
def optionalArgs {F : Type} (lib : GoLib F) (minPriceStr maxPriceStr productName : String) :
    List (Arg F) :=
  (if minPriceStr ≠ "" then (lib.parseFloat minPriceStr).toList.map Arg.float else []) ++
  (if maxPriceStr ≠ "" then (lib.parseFloat maxPriceStr).toList.map Arg.float else []) ++
  (if productName ≠ "" then [Arg.str ("%" ++ productName ++ "%")] else [])

/-- The optional part of the query text: one `AND` clause per supplied predicate. -/
def optionalClauses (minPriceStr maxPriceStr productName : String) : String :=
  (if minPriceStr ≠ "" then " AND product_price >= $2" else "") ++
  (if maxPriceStr ≠ "" then " AND product_price <= $3" else "") ++
  (if productName ≠ "" then " AND product_name ILIKE $4" else "")

/-- The value of the local `minPrice` when the max_price block runs: the parsed min_price
when one was supplied, else the zero value it was declared with. -/
def minPriceOf {F : Type} (lib : GoLib F) (minPriceStr : String) : F :=
  if minPriceStr ≠ "" then (lib.parseFloat minPriceStr).getD lib.zero else lib.zero

/-- How many of the three optional predicates were supplied non-empty. -/
def suppliedCount (minPriceStr maxPriceStr productName : String) : Nat :=
  (if minPriceStr ≠ "" then 1 else 0) + (if maxPriceStr ≠ "" then 1 else 0) +
  (if productName ≠ "" then 1 else 0)

/-- The pair `GetCache` returns in `GetProductByID` for the product id `productID`. -/
def cachedFor {F : Type} (lib : GoLib F) (env : Env F) (rdb : Redis) (productID : Int) :
    String × Option String :=
  (GetCache env ("product:" ++ lib.itoa productID) { rdb := rdb, calls := [] }).1

/-- The condition `err == nil && cachedProduct != ""` of `GetProductByID`. -/
def cacheHit {F : Type} (lib : GoLib F) (env : Env F) (rdb : Redis) (productID : Int) : Prop :=
  (cachedFor lib env rdb productID).2 = none ∧ (cachedFor lib env rdb productID).1 ≠ ""

instance {F : Type} (lib : GoLib F) (env : Env F) (rdb : Redis) (productID : Int) :
    Decidable (cacheHit lib env rdb productID) := by
  unfold cacheHit
  infer_instance

/-- What the store read of `GetProductByID` yields for the product id `productID`. -/
def loaded {F : Type} (env : Env F) (productID : Int) : Option (Product F) :=
  (queryRowProduct env productByIDQuery [Arg.int productID]
    { rdb := fun _ => none, calls := [] }).1

/-- A Redis content in which product 42 is cached with a stale value. -/
def staleRedis : Redis :=
  fun k => if k = "product:42" then some { value := "stale", expiration := 600 } else none

/-- A valid update body. -/
def sampleUpdate : Product Int :=
  { UserID := 0, ProductName := "shirt", ProductDesc := "linen", ProductPrice := 60
    ProductImages := ["a.png"], CompressedProductImages := [] }

/-- A product owned by user -1, otherwise valid. -/
def negativeOwner : Product Int :=
  { UserID := -1, ProductName := "shirt", ProductDesc := "", ProductPrice := 50
    ProductImages := ["a.png"], CompressedProductImages := [] }

/-! ## Theorems on the filter query -/

/-- A successful `min_price` block either was skipped or parsed the price and appended its
clause and argument. -/
theorem applyMinPrice_ok {F : Type} (lib : GoLib F) (minPriceStr : String) (b b1 : Builder F)
    (h : applyMinPrice lib minPriceStr b = Except.ok b1) :
    (minPriceStr = "" ∧ b1 = b) ∨
    (minPriceStr ≠ "" ∧ ∃ m, lib.parseFloat minPriceStr = some m ∧
      b1 = { b with
        minPrice := m
        queryParts := b.queryParts ++ ["product_price >= $2"]
        queryArgs := b.queryArgs ++ [Arg.float m] }) := by
  unfold applyMinPrice at h
  by_cases hs : minPriceStr = ""
  · left
    simp only [hs, ne_eq, not_true_eq_false, if_false, Except.ok.injEq] at h
    exact ⟨hs, h.symm⟩
  · right
    simp only [ne_eq, hs, not_false_eq_true, if_true] at h
    cases hp : lib.parseFloat minPriceStr with
    | none => simp [hp] at h
    | some m =>
      simp only [hp, Except.ok.injEq] at h
      exact ⟨hs, m, rfl, h.symm⟩

/-- A successful `max_price` block either was skipped or parsed the price, passed the range
check and appended its clause and argument. -/
theorem applyMaxPrice_ok {F : Type} (lib : GoLib F) (maxPriceStr : String) (b b2 : Builder F)
    (h : applyMaxPrice lib maxPriceStr b = Except.ok b2) :
    (maxPriceStr = "" ∧ b2 = b) ∨
    (maxPriceStr ≠ "" ∧ ∃ m, lib.parseFloat maxPriceStr = some m ∧ lib.gt b.minPrice m = false ∧
      b2 = { b with
        maxPrice := m
        queryParts := b.queryParts ++ ["product_price <= $3"]
        queryArgs := b.queryArgs ++ [Arg.float m] }) := by
  unfold applyMaxPrice at h
  by_cases hs : maxPriceStr = ""
  · left
    simp only [hs, ne_eq, not_true_eq_false, if_false, Except.ok.injEq] at h
    exact ⟨hs, h.symm⟩
  · right
    simp only [ne_eq, hs, not_false_eq_true, if_true] at h
    cases hp : lib.parseFloat maxPriceStr with
    | none => simp [hp] at h
    | some m =>
      simp only [hp] at h
      cases hg : lib.gt b.minPrice m with
      | true => simp [hg] at h
      | false =>
        simp only [hg, Bool.false_eq_true, if_false, Except.ok.injEq] at h
        exact ⟨hs, m, rfl, hg, h.symm⟩

set_option maxRecDepth 8192 in
/-- The shape of every successful run of the filter assembly. -/
theorem filterQuery_ok_shape {F : Type} (lib : GoLib F)
    (userIDStr minPriceStr maxPriceStr productName : String) (q : FilterQuery F)
    (h : filterQuery lib userIDStr minPriceStr maxPriceStr productName = Except.ok q) :
    lib.atoi userIDStr = some q.userID ∧ 0 < q.userID ∧
    (minPriceStr ≠ "" → (lib.parseFloat minPriceStr).isSome) ∧
    (maxPriceStr ≠ "" → (lib.parseFloat maxPriceStr).isSome) ∧
    q.queryArgs = Arg.int q.userID :: optionalArgs lib minPriceStr maxPriceStr productName ∧
    q.query = baseQuery ++ optionalClauses minPriceStr maxPriceStr productName := by
  unfold filterQuery at h
  cases hu : lib.atoi userIDStr with
  | none => simp [hu] at h
  | some userID =>
    simp only [hu] at h
    by_cases hpos : userID ≤ 0
    · simp [hpos] at h
    · simp only [hpos, if_false] at h
      cases h1 : applyMinPrice lib minPriceStr
          { minPrice := lib.zero, maxPrice := lib.zero
            queryParts := ["user_id=$1"], queryArgs := [Arg.int userID] } with
      | error r => simp [h1] at h
      | ok b1 =>
        simp only [h1] at h
        cases h2 : applyMaxPrice lib maxPriceStr b1 with
        | error r => simp [h2] at h
        | ok b2 =>
          simp only [h2, Except.ok.injEq] at h
          subst h
          have hpos2 : 0 < userID := by omega
          have hmin := applyMinPrice_ok lib _ _ _ h1
          have hmax := applyMaxPrice_ok lib _ _ _ h2
          clear h1 h2
          by_cases hnm : productName = "" <;>
          rcases hmin with ⟨hmn, rfl⟩ | ⟨hmn, m1, hp1, rfl⟩ <;>
          rcases hmax with ⟨hmx, rfl⟩ | ⟨hmx, m2, hp2, -, rfl⟩ <;>
          simp [optionalArgs, optionalClauses, applyProductName, hpos2, *] <;>
          decide

/-- The base query is the select list over `products` restricted by `user_id=$1`. -/
theorem baseQuery_eq :
    baseQuery =
      "SELECT " ++ String.intercalate ", " selectColumns ++ " FROM products" ++
        " WHERE user_id=$1" := by
  decide

/-- The placeholders of every query the filter assembly produces: `$1`, then the fixed
numbers 2, 3 and 4 of the clauses that are present. -/
theorem placeholders_optionalClauses (minPriceStr maxPriceStr productName : String) :
    placeholders (baseQuery ++ optionalClauses minPriceStr maxPriceStr productName) =
      1 :: ((if minPriceStr ≠ "" then [2] else []) ++ (if maxPriceStr ≠ "" then [3] else []) ++
        (if productName ≠ "" then [4] else [])) := by
  by_cases hmn : minPriceStr = "" <;> by_cases hmx : maxPriceStr = "" <;>
    by_cases hnm : productName = "" <;>
    simp only [optionalClauses, hmn, hmx, hnm, ne_eq, not_true_eq_false, not_false_eq_true,
      if_true, if_false] <;>
    decide

set_option maxRecDepth 8192 in
/-- C1, evaluated on the code: for userID=7, no min_price, max_price=50 and
product_name="shirt" the assembly reaches query execution with the three arguments
[7, 50, "%shirt%"], but the placeholders of the query text are $1, $3, $4 and not
$1, $2, $3: the max_price argument sits at position 2 while its clause names `$3`. -/
theorem filterQuery_placeholders_fixed_slot {F : Type} (lib : GoLib F) (x : F)
    (hu : lib.atoi "7" = some 7) (hx : lib.parseFloat "50" = some x)
    (hle : lib.gt lib.zero x = false) :
    ∃ q, filterQuery lib "7" "" "50" "shirt" = Except.ok q ∧
      q.queryArgs = [Arg.int 7, Arg.float x, Arg.str "%shirt%"] ∧
      q.query = baseQuery ++ " AND product_price <= $3 AND product_name ILIKE $4" ∧
      placeholders q.query = [1, 3, 4] ∧
      placeholders q.query ≠ List.range' 1 q.queryArgs.length := by
  refine ⟨{ userID := 7
            query := baseQuery ++ " AND product_price <= $3 AND product_name ILIKE $4"
            queryArgs := [Arg.int 7, Arg.float x, Arg.str "%shirt%"] }, ?_, rfl, rfl, ?_, ?_⟩
  · simp [filterQuery, hu, applyMinPrice, applyMaxPrice, applyProductName, hx, hle]
    decide
  · dsimp only
    decide
  · simp only [List.length_cons, List.length_nil]
    decide

/-- The run of `filterQuery_placeholders_fixed_slot` on the sample library. -/
theorem filterQuery_placeholders_fixed_slot_witness :
    ∃ q, filterQuery sampleLib "7" "" "50" "shirt" = Except.ok q ∧
      q.queryArgs = [Arg.int 7, Arg.float 50, Arg.str "%shirt%"] ∧
      q.query = baseQuery ++ " AND product_price <= $3 AND product_name ILIKE $4" ∧
      placeholders q.query = [1, 3, 4] ∧
      placeholders q.query ≠ List.range' 1 q.queryArgs.length :=
  filterQuery_placeholders_fixed_slot sampleLib 50 (by decide) (by decide) (by decide)

/-- One optional argument per supplied predicate. -/
theorem optionalArgs_length {F : Type} (lib : GoLib F)
    (minPriceStr maxPriceStr productName : String)
    (hmn : minPriceStr ≠ "" → (lib.parseFloat minPriceStr).isSome)
    (hmx : maxPriceStr ≠ "" → (lib.parseFloat maxPriceStr).isSome) :
    (optionalArgs lib minPriceStr maxPriceStr productName).length =
      suppliedCount minPriceStr maxPriceStr productName := by
  cases h1 : lib.parseFloat minPriceStr <;> cases h2 : lib.parseFloat maxPriceStr <;>
    by_cases e1 : minPriceStr = "" <;> by_cases e2 : maxPriceStr = "" <;>
    by_cases e3 : productName = "" <;>
    simp_all [optionalArgs, suppliedCount]

/-- C2: whenever the filter assembly reaches query execution, the number of arguments
handed to the store equals the number of placeholder occurrences in the query text, and
both are 1 plus the number of optional predicates supplied non-empty. -/
theorem filterQuery_args_count {F : Type} (lib : GoLib F)
    (userIDStr minPriceStr maxPriceStr productName : String) (q : FilterQuery F)
    (h : filterQuery lib userIDStr minPriceStr maxPriceStr productName = Except.ok q) :
    q.queryArgs.length = (placeholders q.query).length ∧
    q.queryArgs.length = 1 + suppliedCount minPriceStr maxPriceStr productName := by
  obtain ⟨-, -, hmn, hmx, hargs, hquery⟩ := filterQuery_ok_shape lib _ _ _ _ q h
  have hlen := optionalArgs_length lib minPriceStr maxPriceStr productName hmn hmx
  rw [hargs, hquery, placeholders_optionalClauses, List.length_cons, List.length_cons, hlen]
  refine ⟨?_, by omega⟩
  by_cases h1 : minPriceStr = "" <;> by_cases h2 : maxPriceStr = "" <;>
    by_cases h3 : productName = "" <;>
    simp [suppliedCount, h1, h2, h3]

/-- The run of `filterQuery_args_count` on the request user_id=7, max_price=50,
product_name=shirt. -/
theorem filterQuery_args_count_witness :
    filterQuery sampleLib "7" "" "50" "shirt" = Except.ok
      { userID := 7
        query := baseQuery ++ " AND product_price <= $3 AND product_name ILIKE $4"
        queryArgs := [Arg.int 7, Arg.float 50, Arg.str "%shirt%"] } ∧
    [Arg.int 7, Arg.float (50 : Int), Arg.str "%shirt%"].length =
      (placeholders (baseQuery ++ " AND product_price <= $3 AND product_name ILIKE $4")).length ∧
    [Arg.int 7, Arg.float (50 : Int), Arg.str "%shirt%"].length =
      1 + suppliedCount "" "50" "shirt" :=
  ⟨rfl, filterQuery_args_count sampleLib "7" "" "50" "shirt" _ rfl⟩

/-- C3, evaluated on the code: with min_price omitted, a valid user id and a parseable
max_price below zero (the zero value of the unset `minPrice` compares greater), the
assembly fails with the range error although no min_price was supplied. -/
theorem filterQuery_range_error_without_min {F : Type} (lib : GoLib F)
    (userIDStr maxPriceStr productName : String) (userID : Int) (m : F)
    (hu : lib.atoi userIDStr = some userID) (hpos : 0 < userID)
    (hne : maxPriceStr ≠ "") (hm : lib.parseFloat maxPriceStr = some m)
    (hneg : lib.gt lib.zero m = true) :
    filterQuery lib userIDStr "" maxPriceStr productName =
      Except.error (RespondWithError StatusBadRequest
        "min_price should be less than or equal to max_price") := by
  have hpos2 : ¬ userID ≤ 0 := by omega
  simp [filterQuery, hu, hpos2, applyMinPrice, applyMaxPrice, hne, hm, hneg]

/-- The run of `filterQuery_range_error_without_min` on the request user_id=1,
max_price=-5. -/
theorem filterQuery_range_error_without_min_witness :
    filterQuery sampleLib "1" "" "-5" "" =
      Except.error (RespondWithError StatusBadRequest
        "min_price should be less than or equal to max_price") :=
  filterQuery_range_error_without_min sampleLib "1" "-5" "" 1 (-5)
    (by decide) (by decide) (by decide) (by decide) (by decide)

/-- A run that reaches query execution with a max_price passed the range check against
the value of `minPrice` at that point. -/
theorem filterQuery_ok_range {F : Type} (lib : GoLib F)
    (userIDStr minPriceStr maxPriceStr productName : String) (q : FilterQuery F)
    (h : filterQuery lib userIDStr minPriceStr maxPriceStr productName = Except.ok q)
    (hne : maxPriceStr ≠ "") :
    ∃ m, lib.parseFloat maxPriceStr = some m ∧
      lib.gt (minPriceOf lib minPriceStr) m = false := by
  unfold filterQuery at h
  cases hu : lib.atoi userIDStr with
  | none => simp [hu] at h
  | some userID =>
    simp only [hu] at h
    by_cases hpos : userID ≤ 0
    · simp [hpos] at h
    · simp only [hpos, if_false] at h
      cases h1 : applyMinPrice lib minPriceStr
          { minPrice := lib.zero, maxPrice := lib.zero
            queryParts := ["user_id=$1"], queryArgs := [Arg.int userID] } with
      | error r => simp [h1] at h
      | ok b1 =>
        simp only [h1] at h
        cases h2 : applyMaxPrice lib maxPriceStr b1 with
        | error r => simp [h2] at h
        | ok b2 =>
          rcases applyMaxPrice_ok lib _ _ _ h2 with ⟨hmx, -⟩ | ⟨-, m, hm, hg, -⟩
          · exact absurd hmx hne
          · refine ⟨m, hm, ?_⟩
            rcases applyMinPrice_ok lib _ _ _ h1 with ⟨hmn, rfl⟩ | ⟨hmn, m1, hp1, rfl⟩
            · simpa [minPriceOf, hmn] using hg
            · simpa [minPriceOf, hmn, hp1] using hg

set_option maxRecDepth 8192 in
/-- Every request with a positive user id, parseable supplied prices and a max_price that
passes the range check reaches query execution, with the arguments and the text listed. -/
theorem filterQuery_reaches_execution {F : Type} (lib : GoLib F)
    (userIDStr minPriceStr maxPriceStr productName : String) (userID : Int)
    (hu : lib.atoi userIDStr = some userID) (hpos : 0 < userID)
    (hmn : minPriceStr ≠ "" → ∃ m, lib.parseFloat minPriceStr = some m)
    (hmx : maxPriceStr ≠ "" → ∃ m, lib.parseFloat maxPriceStr = some m ∧
      lib.gt (minPriceOf lib minPriceStr) m = false) :
    filterQuery lib userIDStr minPriceStr maxPriceStr productName =
      Except.ok
        { userID := userID
          query := baseQuery ++ optionalClauses minPriceStr maxPriceStr productName
          queryArgs := Arg.int userID :: optionalArgs lib minPriceStr maxPriceStr productName } := by
  have hpos2 : ¬ userID ≤ 0 := by omega
  by_cases e1 : minPriceStr = ""
  · by_cases e2 : maxPriceStr = ""
    · by_cases e3 : productName = "" <;>
        simp [filterQuery, applyMinPrice, applyMaxPrice, applyProductName, optionalArgs,
          optionalClauses, hu, hpos2, e1, e2, e3] <;>
        decide
    · obtain ⟨m2, h2, hg⟩ := hmx e2
      simp only [minPriceOf, e1, ne_eq, not_true_eq_false, if_false] at hg
      by_cases e3 : productName = "" <;>
        simp [filterQuery, applyMinPrice, applyMaxPrice, applyProductName, optionalArgs,
          optionalClauses, hu, hpos2, e1, e2, e3, h2, hg] <;>
        decide
  · obtain ⟨m1, h1⟩ := hmn e1
    by_cases e2 : maxPriceStr = ""
    · by_cases e3 : productName = "" <;>
        simp [filterQuery, applyMinPrice, applyMaxPrice, applyProductName, optionalArgs,
          optionalClauses, hu, hpos2, e1, e2, e3, h1] <;>
        decide
    · obtain ⟨m2, h2, hg⟩ := hmx e2
      simp only [minPriceOf, e1, h1, ne_eq, not_false_eq_true, if_true,
        Option.getD_some] at hg
      by_cases e3 : productName = "" <;>
        simp [filterQuery, applyMinPrice, applyMaxPrice, applyProductName, optionalArgs,
          optionalClauses, hu, hpos2, e1, e2, e3, h1, h2, hg] <;>
        decide

/-- C4: the filter assembly reaches query execution with the result `q` exactly when the
user id parses and is positive, every supplied price parses and a supplied max_price is
not below the min_price in force (the supplied one, else zero), and then `q` is pinned
down: its argument list is the user id, then the parsed min_price if supplied, then the
parsed max_price if supplied, then the name wrapped in `%` if non-empty, and nothing else;
its query text is the base SELECT, which ends in `WHERE user_id=$1`, followed by one
` AND ` clause per supplied predicate in the same order. -/
theorem filterQuery_args_and_clauses {F : Type} (lib : GoLib F)
    (userIDStr minPriceStr maxPriceStr productName : String) (q : FilterQuery F) :
    filterQuery lib userIDStr minPriceStr maxPriceStr productName = Except.ok q ↔
    ∃ userID, lib.atoi userIDStr = some userID ∧ 0 < userID ∧
      (minPriceStr ≠ "" → ∃ m, lib.parseFloat minPriceStr = some m) ∧
      (maxPriceStr ≠ "" → ∃ m, lib.parseFloat maxPriceStr = some m ∧
        lib.gt (minPriceOf lib minPriceStr) m = false) ∧
      q.userID = userID ∧
      q.queryArgs =
        [Arg.int userID] ++
        (if minPriceStr ≠ "" then (lib.parseFloat minPriceStr).toList.map Arg.float else []) ++
        (if maxPriceStr ≠ "" then (lib.parseFloat maxPriceStr).toList.map Arg.float else []) ++
        (if productName ≠ "" then [Arg.str ("%" ++ productName ++ "%")] else []) ∧
      q.query =
        ("SELECT " ++ String.intercalate ", " selectColumns ++ " FROM products" ++
          " WHERE user_id=$1") ++
        ((if minPriceStr ≠ "" then " AND " ++ "product_price >= $2" else "") ++
         (if maxPriceStr ≠ "" then " AND " ++ "product_price <= $3" else "") ++
         (if productName ≠ "" then " AND " ++ "product_name ILIKE $4" else "")) := by
  have hargs : ∀ userID : Int,
      [Arg.int userID] ++
        (if minPriceStr ≠ "" then (lib.parseFloat minPriceStr).toList.map Arg.float else []) ++
        (if maxPriceStr ≠ "" then (lib.parseFloat maxPriceStr).toList.map Arg.float else []) ++
        (if productName ≠ "" then [Arg.str ("%" ++ productName ++ "%")] else []) =
      Arg.int userID :: optionalArgs lib minPriceStr maxPriceStr productName := by
    intro userID
    simp [optionalArgs]
  have hquery :
      ("SELECT " ++ String.intercalate ", " selectColumns ++ " FROM products" ++
          " WHERE user_id=$1") ++
        ((if minPriceStr ≠ "" then " AND " ++ "product_price >= $2" else "") ++
         (if maxPriceStr ≠ "" then " AND " ++ "product_price <= $3" else "") ++
         (if productName ≠ "" then " AND " ++ "product_name ILIKE $4" else "")) =
      baseQuery ++ optionalClauses minPriceStr maxPriceStr productName := by
    rw [← baseQuery_eq]
    rfl
  constructor
  · intro h
    obtain ⟨hu, hpos, hmn, -, ha, hq⟩ := filterQuery_ok_shape lib _ _ _ _ q h
    refine ⟨q.userID, hu, hpos, fun hne => Option.isSome_iff_exists.mp (hmn hne),
      fun hne => filterQuery_ok_range lib _ _ _ _ q h hne, rfl, ?_, ?_⟩
    · rw [hargs, ha]
    · rw [hquery, hq]
  · rintro ⟨userID, hu, hpos, hmn, hmx, hid, ha, hq⟩
    rw [filterQuery_reaches_execution lib _ _ _ _ userID hu hpos hmn hmx]
    rw [hargs] at ha
    rw [hquery] at hq
    cases q
    simp only at hid ha hq
    rw [hid, ha, hq]

set_option maxRecDepth 8192 in
/-- Two runs of `filterQuery_args_and_clauses`. With min_price=10, max_price=50 and
product_name=shirt for user 7 the assembly reaches execution with the arguments
[7, 10, 50, "%shirt%"] and all three clauses; with min_price omitted the argument list is
[7, 50, "%shirt%"]. -/
theorem filterQuery_args_and_clauses_witness :
    filterQuery sampleLib "7" "10" "50" "shirt" = Except.ok
      { userID := 7
        query := baseQuery ++
          " AND product_price >= $2 AND product_price <= $3 AND product_name ILIKE $4"
        queryArgs := [Arg.int 7, Arg.float 10, Arg.float 50, Arg.str "%shirt%"] } ∧
    filterQuery sampleLib "7" "" "50" "shirt" = Except.ok
      { userID := 7
        query := baseQuery ++ " AND product_price <= $3 AND product_name ILIKE $4"
        queryArgs := [Arg.int 7, Arg.float 50, Arg.str "%shirt%"] } :=
  ⟨(filterQuery_args_and_clauses sampleLib "7" "10" "50" "shirt" _).2
      ⟨7, by decide, by decide, fun _ => ⟨10, by decide⟩, fun _ => ⟨50, by decide, by decide⟩,
        rfl, rfl, by decide⟩,
   (filterQuery_args_and_clauses sampleLib "7" "" "50" "shirt" _).2
      ⟨7, by decide, by decide, fun h => absurd rfl h, fun _ => ⟨50, by decide, by decide⟩,
        rfl, rfl, by decide⟩⟩

/-! ## Theorems on the cache protocol -/

/-- The cache get is a hit exactly when Redis answers without error with a present,
non-empty value. -/
theorem cacheHit_iff {F : Type} (lib : GoLib F) (env : Env F) (rdb : Redis) (productID : Int) :
    cacheHit lib env rdb productID ↔
      env.cacheGetErr = none ∧
        ∃ entry, rdb ("product:" ++ lib.itoa productID) = some entry ∧ entry.value ≠ "" := by
  unfold cacheHit cachedFor GetCache
  cases hg : env.cacheGetErr with
  | some e => simp
  | none =>
    cases hr : rdb ("product:" ++ lib.itoa productID) with
    | none => simp [hr]
    | some entry => simp [hr]

/-- The function `SetCache` issues exactly one call, with the ttl it was given. -/
theorem SetCache_calls {F : Type} (env : Env F) (key value : String) (ttl : Duration)
    (w : World F) :
    (SetCache env key value ttl w).2.calls = w.calls ++ [Call.cacheSet key value ttl] := by
  unfold SetCache
  cases env.cacheSetErr <;> rfl

/-- When the round trip succeeds, `SetCache` stores the value with the given expiration
under the key and leaves the other keys alone. -/
theorem SetCache_rdb {F : Type} (env : Env F) (key value : String) (ttl : Duration)
    (w : World F) (hs : env.cacheSetErr = none) :
    (SetCache env key value ttl w).2.rdb =
      fun k => if k = key then some { value := value, expiration := ttl } else w.rdb k := by
  unfold SetCache
  rw [hs]

/-- The three runs of `GetProductByID` once the id is parsed: served from the cache, not
found in the store, loaded from the store. -/
theorem getProductByID_cases {F : Type} (lib : GoLib F) (env : Env F) (productIDStr : String)
    (rdb : Redis) (productID : Int) (hid : lib.atoi productIDStr = some productID) :
    (cacheHit lib env rdb productID ∧
      GetProductByID lib env productIDStr rdb =
        ({ status := StatusOK, body := Body.bytes (cachedFor lib env rdb productID).1 },
         { rdb := rdb, calls := [Call.cacheGet ("product:" ++ lib.itoa productID)] })) ∨
    (¬ cacheHit lib env rdb productID ∧ loaded env productID = none ∧
      GetProductByID lib env productIDStr rdb =
        (RespondWithError StatusNotFound "Product not found",
         { rdb := rdb
           calls := [Call.cacheGet ("product:" ++ lib.itoa productID),
                     Call.dbQueryRow productByIDQuery [Arg.int productID]] })) ∨
    (¬ cacheHit lib env rdb productID ∧ ∃ product, loaded env productID = some product ∧
      GetProductByID lib env productIDStr rdb =
        ({ status := StatusOK, body := Body.bytes (lib.marshalProduct product) },
         (SetCache env ("product:" ++ lib.itoa productID) (lib.marshalProduct product) 600
           { rdb := rdb
             calls := [Call.cacheGet ("product:" ++ lib.itoa productID),
                       Call.dbQueryRow productByIDQuery [Arg.int productID]] }).2)) := by
  unfold cacheHit cachedFor loaded GetProductByID GetCache queryRowProduct SetCache
  simp only [hid]
  rcases hq : env.queryRow productByIDQuery [Arg.int productID] with e | row
  · cases hg : env.cacheGetErr <;> cases hs : env.cacheSetErr <;>
      cases hr : rdb ("product:" ++ lib.itoa productID) <;>
      simp [hg, hr, hq, hs, StatusOK] <;>
      exact (em _).symm
  · cases hp : scanProduct row <;>
      cases hg : env.cacheGetErr <;> cases hs : env.cacheSetErr <;>
      cases hr : rdb ("product:" ++ lib.itoa productID) <;>
      simp [hg, hr, hq, hs, hp, StatusOK] <;>
      exact (em _).symm

/-- C6: read-through in `GetProductByID`. The store is queried exactly when the cache get
did not return a non-empty value without error, that is unless Redis answered without
error with a present, non-empty value. On such a hit the body is the cached value, the only
call made is the cache get and Redis is unchanged. Otherwise (miss, empty value, Redis
error) the store is queried, and when that read succeeds the response is status 200 with
the serialized product. -/
theorem getProductByID_read_through {F : Type} (lib : GoLib F) (env : Env F)
    (productIDStr : String) (rdb : Redis) (productID : Int)
    (hid : lib.atoi productIDStr = some productID) :
    ((GetProductByID lib env productIDStr rdb).2.calls.any Call.isStore = true ↔
      ¬ cacheHit lib env rdb productID) ∧
    (cacheHit lib env rdb productID ↔
      env.cacheGetErr = none ∧
        ∃ entry, rdb ("product:" ++ lib.itoa productID) = some entry ∧ entry.value ≠ "") ∧
    (cacheHit lib env rdb productID →
      (GetProductByID lib env productIDStr rdb).1 =
        { status := StatusOK, body := Body.bytes (cachedFor lib env rdb productID).1 } ∧
      (GetProductByID lib env productIDStr rdb).2.calls =
        [Call.cacheGet ("product:" ++ lib.itoa productID)] ∧
      (GetProductByID lib env productIDStr rdb).2.rdb = rdb) ∧
    (∀ entry, env.cacheGetErr = none →
      rdb ("product:" ++ lib.itoa productID) = some entry → entry.value ≠ "" →
      (GetProductByID lib env productIDStr rdb).1 =
        { status := StatusOK, body := Body.bytes entry.value }) ∧
    (¬ cacheHit lib env rdb productID →
      Call.dbQueryRow productByIDQuery [Arg.int productID] ∈
        (GetProductByID lib env productIDStr rdb).2.calls ∧
      ∀ product, loaded env productID = some product →
        (GetProductByID lib env productIDStr rdb).1 =
          { status := StatusOK, body := Body.bytes (lib.marshalProduct product) }) := by
  refine ⟨?_, cacheHit_iff lib env rdb productID, ?_, ?_, ?_⟩
  · rcases getProductByID_cases lib env productIDStr rdb productID hid with
      ⟨hh, h⟩ | ⟨hh, -, h⟩ | ⟨hh, product, -, h⟩
    · simp [h, hh, Call.isStore]
    · simp [h, hh, Call.isStore]
    · simp [h, SetCache_calls, hh, Call.isStore]
  · intro hh
    rcases getProductByID_cases lib env productIDStr rdb productID hid with
      ⟨-, h⟩ | ⟨hn, -, -⟩ | ⟨hn, -, -, -⟩
    · simp [h]
    · exact absurd hh hn
    · exact absurd hh hn
  · intro entry hg hr hne
    have hh : cacheHit lib env rdb productID :=
      (cacheHit_iff lib env rdb productID).2 ⟨hg, entry, hr, hne⟩
    rcases getProductByID_cases lib env productIDStr rdb productID hid with
      ⟨-, h⟩ | ⟨hn, -, -⟩ | ⟨hn, -, -, -⟩
    · rw [h]
      simp [cachedFor, GetCache, hg, hr]
    · exact absurd hh hn
    · exact absurd hh hn
  · intro hn
    rcases getProductByID_cases lib env productIDStr rdb productID hid with
      ⟨hh, -⟩ | ⟨-, hl, h⟩ | ⟨-, product, hl, h⟩
    · exact absurd hh hn
    · simp [h, hl]
    · simp [h, SetCache_calls, hl]

/-- The run of `getProductByID_read_through` for product 42 on an empty cache: a miss, the
store is queried and the product is returned. -/
theorem getProductByID_read_through_witness :
    ¬ cacheHit sampleLib (sampleEnv sampleTable) emptyRedis 42 ∧
    Call.dbQueryRow productByIDQuery [Arg.int 42] ∈
      (GetProductByID sampleLib (sampleEnv sampleTable) "42" emptyRedis).2.calls ∧
    (GetProductByID sampleLib (sampleEnv sampleTable) "42" emptyRedis).1 =
      { status := StatusOK, body := Body.bytes (sampleLib.marshalProduct sampleProduct) } := by
  have h := getProductByID_read_through sampleLib (sampleEnv sampleTable) "42" emptyRedis 42
    (by decide)
  have hmiss : ¬ cacheHit sampleLib (sampleEnv sampleTable) emptyRedis 42 := by decide
  exact ⟨hmiss, (h.2.2.2.2 hmiss).1, (h.2.2.2.2 hmiss).2 sampleProduct (by rfl)⟩

/-- C7: when the store read of `GetProductByID` fails, the response is the not-found error,
no cache write is issued and Redis is as before the call. Every cache write the handler
issues is the last of its calls, comes after the store read, which succeeded, uses the key
`product:<id>` and carries the serialization of the product just read. -/
theorem getProductByID_cache_write_after_load {F : Type} (lib : GoLib F) (env : Env F)
    (productIDStr : String) (rdb : Redis) (productID : Int)
    (hid : lib.atoi productIDStr = some productID) :
    (¬ cacheHit lib env rdb productID → loaded env productID = none →
      (GetProductByID lib env productIDStr rdb).1 =
        RespondWithError StatusNotFound "Product not found" ∧
      (GetProductByID lib env productIDStr rdb).2.rdb = rdb ∧
      (GetProductByID lib env productIDStr rdb).2.calls.any Call.isCacheSet = false) ∧
    (∀ key value ttl,
      Call.cacheSet key value ttl ∈ (GetProductByID lib env productIDStr rdb).2.calls →
      ∃ product, loaded env productID = some product ∧
        key = "product:" ++ lib.itoa productID ∧ value = lib.marshalProduct product ∧
        (GetProductByID lib env productIDStr rdb).2.calls =
          [Call.cacheGet ("product:" ++ lib.itoa productID),
           Call.dbQueryRow productByIDQuery [Arg.int productID],
           Call.cacheSet key value ttl]) := by
  refine ⟨?_, ?_⟩
  · intro hn hl
    rcases getProductByID_cases lib env productIDStr rdb productID hid with
      ⟨hh, -⟩ | ⟨-, -, h⟩ | ⟨-, product, hl2, -⟩
    · exact absurd hh hn
    · simp [h, Call.isCacheSet]
    · rw [hl] at hl2
      cases hl2
  · intro key value ttl hmem
    rcases getProductByID_cases lib env productIDStr rdb productID hid with
      ⟨-, h⟩ | ⟨-, -, h⟩ | ⟨-, product, hl, h⟩
    · simp [h] at hmem
    · simp [h] at hmem
    · refine ⟨product, hl, ?_⟩
      rw [h] at hmem ⊢
      simp only [SetCache_calls] at hmem ⊢
      simp at hmem
      obtain ⟨rfl, rfl, rfl⟩ := hmem
      simp

/-- The run of `getProductByID_cache_write_after_load` for the unknown product 5 on an empty
cache: not found, nothing written. -/
theorem getProductByID_cache_write_after_load_witness :
    (GetProductByID sampleLib (sampleEnv sampleTable) "5" emptyRedis).1 =
        RespondWithError StatusNotFound "Product not found" ∧
    (GetProductByID sampleLib (sampleEnv sampleTable) "5" emptyRedis).2.rdb = emptyRedis ∧
    (GetProductByID sampleLib (sampleEnv sampleTable) "5" emptyRedis).2.calls.any
      Call.isCacheSet = false :=
  (getProductByID_cache_write_after_load sampleLib (sampleEnv sampleTable) "5" emptyRedis 5
    (by decide)).1 (by decide) (by rfl)

/-- A successful `UpdateProduct` parsed the id, executed the update and then issued the
invalidation `SetCache(key, "", 0)`. -/
theorem updateProduct_ok {F : Type} (lib : GoLib F) (env : Env F) (productIDStr : String)
    (body : Option (Product F)) (rdb : Redis)
    (hok : (UpdateProduct lib env productIDStr body rdb).1 =
      { status := StatusOK, body := Body.updated }) :
    ∃ productID product, lib.atoi productIDStr = some productID ∧ body = some product ∧
      (UpdateProduct lib env productIDStr body rdb).2 =
        (SetCache env ("product:" ++ lib.itoa productID) "" 0
          { rdb := rdb
            calls := [Call.dbExec updateQuery
              [Arg.str product.ProductName, Arg.str product.ProductDesc,
               Arg.float product.ProductPrice, Arg.strs product.ProductImages,
               Arg.int productID]] }).2 := by
  unfold UpdateProduct at hok ⊢
  cases hid : lib.atoi productIDStr with
  | none => simp [hid, RespondWithError, StatusOK, StatusBadRequest] at hok
  | some productID =>
    cases body with
    | none => simp [hid, RespondWithError, StatusOK, StatusBadRequest] at hok
    | some product =>
      simp only [hid] at hok ⊢
      by_cases hv : product.ProductName = "" ∨ lib.le product.ProductPrice lib.zero = true
      · simp [hv, RespondWithError, StatusOK, StatusBadRequest] at hok
      · simp only [hv, if_false] at hok ⊢
        unfold dbExec at hok ⊢
        cases he : env.exec updateQuery
            [Arg.str product.ProductName, Arg.str product.ProductDesc,
             Arg.float product.ProductPrice, Arg.strs product.ProductImages,
             Arg.int productID] with
        | some e =>
          simp [he, RespondWithError, StatusOK, StatusInternalServerError] at hok
        | none =>
          refine ⟨productID, product, rfl, rfl, ?_⟩
          simp [he]

/-- C8: invalidate then read. After an `UpdateProduct` that succeeded and whose
invalidation write reached Redis, the key `product:<id>` exists and holds the empty string
with no expiration, and a `GetProductByID` of the same id on that Redis content, whatever
was cached before and whatever the collaborators answer now, queries the store; its
response is the not-found error or the serialization of the product the store returns,
never a cached value. -/
theorem updateProduct_then_getProductByID {F : Type} (lib : GoLib F) (env env2 : Env F)
    (productIDStr : String) (body : Option (Product F)) (rdb : Redis)
    (hok : (UpdateProduct lib env productIDStr body rdb).1 =
      { status := StatusOK, body := Body.updated })
    (hset : env.cacheSetErr = none) :
    ∃ productID, lib.atoi productIDStr = some productID ∧
      Call.cacheSet ("product:" ++ lib.itoa productID) "" 0 ∈
        (UpdateProduct lib env productIDStr body rdb).2.calls ∧
      (UpdateProduct lib env productIDStr body rdb).2.rdb ("product:" ++ lib.itoa productID) =
        some { value := "", expiration := 0 } ∧
      Call.dbQueryRow productByIDQuery [Arg.int productID] ∈
        (GetProductByID lib env2 productIDStr
          (UpdateProduct lib env productIDStr body rdb).2.rdb).2.calls ∧
      (loaded env2 productID = none →
        (GetProductByID lib env2 productIDStr
          (UpdateProduct lib env productIDStr body rdb).2.rdb).1 =
          RespondWithError StatusNotFound "Product not found") ∧
      (∀ product, loaded env2 productID = some product →
        (GetProductByID lib env2 productIDStr
          (UpdateProduct lib env productIDStr body rdb).2.rdb).1 =
          { status := StatusOK, body := Body.bytes (lib.marshalProduct product) }) := by
  obtain ⟨productID, product, hid, -, h⟩ := updateProduct_ok lib env productIDStr body rdb hok
  have hkey : (UpdateProduct lib env productIDStr body rdb).2.rdb
      ("product:" ++ lib.itoa productID) = some { value := "", expiration := 0 } := by
    rw [h, SetCache_rdb _ _ _ _ _ hset]
    simp
  have hmiss : ¬ cacheHit lib env2 (UpdateProduct lib env productIDStr body rdb).2.rdb
      productID := by
    rw [cacheHit_iff]
    rintro ⟨-, entry, he, hne⟩
    rw [hkey] at he
    cases he
    exact hne rfl
  refine ⟨productID, hid, ?_, hkey, ?_, ?_, ?_⟩
  · rw [h, SetCache_calls]
    simp
  · rcases getProductByID_cases lib env2 productIDStr _ productID hid with
      ⟨hh, -⟩ | ⟨-, -, hg⟩ | ⟨-, p, -, hg⟩
    · exact absurd hh hmiss
    · simp [hg]
    · simp [hg, SetCache_calls]
  · intro hl
    rcases getProductByID_cases lib env2 productIDStr _ productID hid with
      ⟨hh, -⟩ | ⟨-, -, hg⟩ | ⟨-, p, hl2, -⟩
    · exact absurd hh hmiss
    · simp [hg]
    · rw [hl] at hl2
      cases hl2
  · intro p hl
    rcases getProductByID_cases lib env2 productIDStr _ productID hid with
      ⟨hh, -⟩ | ⟨-, hl2, -⟩ | ⟨-, p2, hl2, hg⟩
    · exact absurd hh hmiss
    · rw [hl] at hl2
      cases hl2
    · rw [hl] at hl2
      cases hl2
      simp [hg]

/-- The run of `updateProduct_then_getProductByID` for product 42 with a stale cached
value: the following read goes to the store. -/
theorem updateProduct_then_getProductByID_witness :
    ∃ productID, sampleLib.atoi "42" = some productID ∧
      Call.cacheSet ("product:" ++ sampleLib.itoa productID) "" 0 ∈
        (UpdateProduct sampleLib (sampleEnv sampleTable) "42" (some sampleUpdate)
          staleRedis).2.calls ∧
      (UpdateProduct sampleLib (sampleEnv sampleTable) "42" (some sampleUpdate)
          staleRedis).2.rdb ("product:" ++ sampleLib.itoa productID) =
        some { value := "", expiration := 0 } ∧
      Call.dbQueryRow productByIDQuery [Arg.int productID] ∈
        (GetProductByID sampleLib (sampleEnv sampleTable) "42"
          (UpdateProduct sampleLib (sampleEnv sampleTable) "42" (some sampleUpdate)
            staleRedis).2.rdb).2.calls ∧
      (loaded (sampleEnv sampleTable) productID = none →
        (GetProductByID sampleLib (sampleEnv sampleTable) "42"
          (UpdateProduct sampleLib (sampleEnv sampleTable) "42" (some sampleUpdate)
            staleRedis).2.rdb).1 =
          RespondWithError StatusNotFound "Product not found") ∧
      (∀ product, loaded (sampleEnv sampleTable) productID = some product →
        (GetProductByID sampleLib (sampleEnv sampleTable) "42"
          (UpdateProduct sampleLib (sampleEnv sampleTable) "42" (some sampleUpdate)
            staleRedis).2.rdb).1 =
          { status := StatusOK, body := Body.bytes (sampleLib.marshalProduct product) }) :=
  updateProduct_then_getProductByID sampleLib (sampleEnv sampleTable) (sampleEnv sampleTable)
    "42" (some sampleUpdate) staleRedis (by rfl) (by rfl)

/-- The successful run of `GetProducts`: the query is executed, every row scans, the
iteration ends without error; the list is serialized, cached and returned. -/
theorem getProducts_ok {F : Type} (lib : GoLib F) (env : Env F)
    (userIDStr minPriceStr maxPriceStr productName : String) (rdb : Redis)
    (q : FilterQuery F) (rows : List (List (Value F))) (products : List (Product F))
    (hq : filterQuery lib userIDStr minPriceStr maxPriceStr productName = Except.ok q)
    (hrows : env.query q.query q.queryArgs = Except.ok (rows, none))
    (hscan : scanRows rows = some products) :
    GetProducts lib env userIDStr minPriceStr maxPriceStr productName rdb =
      ({ status := StatusOK, body := Body.bytes (lib.marshalProducts products) },
       (SetCache env ("products:user:" ++ lib.itoa q.userID) (lib.marshalProducts products) 600
         { rdb := rdb, calls := [Call.dbQuery q.query q.queryArgs] }).2) := by
  unfold GetProducts dbQuery
  simp only [hq, hrows, hscan, List.nil_append]
  rfl

/-- C5, evaluated on the code: on the read path both handlers hand `SetCache` the
duration 600, that is 600 nanoseconds, which is not the duration of 600 seconds
(600 * time.Second); the entry is stored with that expiration. -/
theorem read_path_ttl_is_600_nanoseconds {F : Type} (lib : GoLib F) (env : Env F)
    (productIDStr : String) (rdb : Redis) (productID : Int) (product : Product F)
    (userIDStr minPriceStr maxPriceStr productName : String)
    (q : FilterQuery F) (rows : List (List (Value F))) (products : List (Product F))
    (hid : lib.atoi productIDStr = some productID)
    (hmiss : ¬ cacheHit lib env rdb productID)
    (hload : loaded env productID = some product)
    (hq : filterQuery lib userIDStr minPriceStr maxPriceStr productName = Except.ok q)
    (hrows : env.query q.query q.queryArgs = Except.ok (rows, none))
    (hscan : scanRows rows = some products)
    (hset : env.cacheSetErr = none) :
    (GetProductByID lib env productIDStr rdb).2.calls =
      [Call.cacheGet ("product:" ++ lib.itoa productID),
       Call.dbQueryRow productByIDQuery [Arg.int productID],
       Call.cacheSet ("product:" ++ lib.itoa productID) (lib.marshalProduct product) 600] ∧
    (GetProductByID lib env productIDStr rdb).2.rdb ("product:" ++ lib.itoa productID) =
      some { value := lib.marshalProduct product, expiration := 600 } ∧
    (GetProducts lib env userIDStr minPriceStr maxPriceStr productName rdb).2.calls =
      [Call.dbQuery q.query q.queryArgs,
       Call.cacheSet ("products:user:" ++ lib.itoa q.userID) (lib.marshalProducts products)
         600] ∧
    (GetProducts lib env userIDStr minPriceStr maxPriceStr productName rdb).2.rdb
        ("products:user:" ++ lib.itoa q.userID) =
      some { value := lib.marshalProducts products, expiration := 600 } ∧
    (600 : Duration) ≠ 600 * Second ∧ (600 : Duration) * Second = 600000000000 := by
  have hg := getProducts_ok lib env userIDStr minPriceStr maxPriceStr productName rdb q rows
    products hq hrows hscan
  rcases getProductByID_cases lib env productIDStr rdb productID hid with
    ⟨hh, -⟩ | ⟨-, hl, -⟩ | ⟨-, p, hl, h⟩
  · exact absurd hh hmiss
  · rw [hload] at hl
    cases hl
  · rw [hload] at hl
    cases hl
    refine ⟨?_, ?_, ?_, ?_, by decide, by decide⟩
    · simp [h, SetCache_calls]
    · simp [h, SetCache_rdb _ _ _ _ _ hset]
    · simp [hg, SetCache_calls]
    · simp [hg, SetCache_rdb _ _ _ _ _ hset]

/-- The run of `read_path_ttl_is_600_nanoseconds` for product 42 and for the products of
user 7, on an empty cache. -/
theorem read_path_ttl_is_600_nanoseconds_witness :
    (GetProductByID sampleLib (sampleEnv sampleTable) "42" emptyRedis).2.rdb
        ("product:" ++ sampleLib.itoa 42) =
      some { value := sampleLib.marshalProduct sampleProduct, expiration := 600 } ∧
    (GetProducts sampleLib (sampleEnv sampleTable) "7" "" "" "" emptyRedis).2.rdb
        ("products:user:" ++ sampleLib.itoa 7) =
      some { value := sampleLib.marshalProducts (sampleTable.map ProductRow.scanned)
             expiration := 600 } ∧
    (600 : Duration) ≠ 600 * Second := by
  have h := read_path_ttl_is_600_nanoseconds sampleLib (sampleEnv sampleTable) "42" emptyRedis
    42 sampleProduct "7" "" "" ""
    { userID := 7, query := baseQuery, queryArgs := [Arg.int 7] }
    (selectByUser selectColumns sampleTable 7) (sampleTable.map ProductRow.scanned)
    (by decide) (by decide) (by rfl) (by rfl) (by rfl) (by rfl) (by rfl)
  exact ⟨h.2.1, h.2.2.2.1, h.2.2.2.2.1⟩

/-- C9, evaluated on the code: a decoded product whose owning user id is negative, with a
non-empty name, at least one image and a price above zero, passes the validation of
`CreateProduct`: the insert is sent to the store with that user id and the response is not
the validation error. -/
theorem createProduct_accepts_negative_userID {F : Type} (lib : GoLib F) (env : Env F)
    (product : Product F) (rdb : Redis)
    (hneg : product.UserID < 0) (hname : product.ProductName ≠ "")
    (himages : product.ProductImages ≠ [])
    (hprice : lib.le product.ProductPrice lib.zero = false) :
    Call.dbQueryRow insertQuery
        [Arg.int product.UserID, Arg.str product.ProductName, Arg.str product.ProductDesc,
         Arg.float product.ProductPrice, Arg.strs product.ProductImages] ∈
      (CreateProduct lib env (some product) rdb).2.calls ∧
    (CreateProduct lib env (some product) rdb).1 ≠
      RespondWithError StatusBadRequest "Missing required fields or invalid data" := by
  have hu : product.UserID ≠ 0 := by omega
  have hlen : product.ProductImages.length ≠ 0 := by
    simpa [List.length_eq_zero] using himages
  unfold CreateProduct queryRowID Publish
  simp only [hu, hname, hlen, hprice, false_or, Bool.false_eq_true, if_false]
  rcases hq : env.queryRow insertQuery
      [Arg.int product.UserID, Arg.str product.ProductName, Arg.str product.ProductDesc,
       Arg.float product.ProductPrice, Arg.strs product.ProductImages] with e | row
  · simp [RespondWithError, StatusBadRequest, StatusInternalServerError]
  · rcases row with _ | ⟨c, _ | ⟨c2, rest⟩⟩
    · simp [RespondWithError, StatusBadRequest, StatusInternalServerError]
    · cases hc : scanInt c <;> cases hp : env.publishErr <;>
        simp [hc, hp, RespondWithError, StatusBadRequest, StatusInternalServerError, StatusOK]
    · simp [RespondWithError, StatusBadRequest, StatusInternalServerError]

/-- The run of `createProduct_accepts_negative_userID` on `negativeOwner`: the product is
inserted and the creation succeeds. -/
theorem createProduct_accepts_negative_userID_witness :
    Call.dbQueryRow insertQuery
        [Arg.int (-1), Arg.str "shirt", Arg.str "", Arg.float 50, Arg.strs ["a.png"]] ∈
      (CreateProduct sampleLib (sampleEnv sampleTable) (some negativeOwner) emptyRedis).2.calls ∧
    (CreateProduct sampleLib (sampleEnv sampleTable) (some negativeOwner) emptyRedis).1 =
      { status := StatusOK, body := Body.created 2 } := by
  have h := createProduct_accepts_negative_userID sampleLib (sampleEnv sampleTable)
    negativeOwner emptyRedis (by decide) (by decide) (by decide) (by decide)
  exact ⟨h.1, rfl⟩

/-- Scanning a row projected on the select list of `GetProducts`. -/
theorem scanProduct_selectColumns {F : Type} (r : ProductRow F) :
    scanProduct (selectColumns.map r.column) = some r.scanned := by
  cases hc : r.compressed_product_images <;>
    simp [selectColumns, ProductRow.column, scanProduct, scanInt, scanString, scanFloat,
      scanStrings, ProductRow.scanned, hc]

/-- Scanning all rows projected on the select list of `GetProducts`. -/
theorem scanRows_selectColumns {F : Type} (rows : List (ProductRow F)) :
    scanRows (rows.map (fun r => selectColumns.map r.column)) =
      some (rows.map ProductRow.scanned) := by
  induction rows with
  | nil => rfl
  | cons r rest ih =>
    simp only [List.map_cons, scanRows, scanProduct_selectColumns, ih]

/-- C10, evaluated on the code: for a valid user id and the unfiltered request, when the
store answers the statement of `GetProducts` with the rows of that user projected on its
select list (id first), the products returned and cached carry the row id in `UserID`, not
the owning user id. -/
theorem getProducts_UserID_is_row_id {F : Type} (lib : GoLib F) (env : Env F)
    (table : List (ProductRow F)) (userIDStr : String) (userID : Int) (rdb : Redis)
    (hu : lib.atoi userIDStr = some userID) (hpos : 0 < userID)
    (hstore : env.query baseQuery [Arg.int userID] =
      Except.ok (selectByUser selectColumns table userID, none)) :
    (GetProducts lib env userIDStr "" "" "" rdb).1 =
      { status := StatusOK
        body := Body.bytes (lib.marshalProducts
          ((table.filter (fun r => decide (r.user_id = userID))).map ProductRow.scanned)) } ∧
    Call.cacheSet ("products:user:" ++ lib.itoa userID)
        (lib.marshalProducts
          ((table.filter (fun r => decide (r.user_id = userID))).map ProductRow.scanned)) 600 ∈
      (GetProducts lib env userIDStr "" "" "" rdb).2.calls ∧
    ∀ r : ProductRow F, r.scanned.UserID = r.id := by
  have hpos2 : ¬ userID ≤ 0 := by omega
  have hq : filterQuery lib userIDStr "" "" "" =
      Except.ok { userID := userID, query := baseQuery, queryArgs := [Arg.int userID] } := by
    simp [filterQuery, hu, hpos2, applyMinPrice, applyMaxPrice, applyProductName, joinQuery]
  have hg := getProducts_ok lib env userIDStr "" "" "" rdb _ _ _ hq hstore
    (scanRows_selectColumns _)
  refine ⟨?_, ?_, fun r => rfl⟩
  · rw [hg]
  · rw [hg, SetCache_calls]
    simp

/-- The run of `getProducts_UserID_is_row_id` for user 7, who owns product 42: the single
product returned has `UserID` 42. -/
theorem getProducts_UserID_is_row_id_witness :
    (GetProducts sampleLib (sampleEnv sampleTable) "7" "" "" "" emptyRedis).1 =
      { status := StatusOK
        body := Body.bytes (sampleLib.marshalProducts
          [{ UserID := 42, ProductName := "shirt", ProductDesc := "cotton", ProductPrice := 50
             ProductImages := ["a.png"], CompressedProductImages := [] }]) } ∧
    (42 : Int) ≠ 7 :=
  ⟨(getProducts_UserID_is_row_id sampleLib (sampleEnv sampleTable) sampleTable "7" 7
      emptyRedis (by decide) (by decide) (by rfl)).1, by decide⟩

end ProductManagement
